import Mathlib

/-!
Shallow embedding of the foodprint backend (src/main.py): the tolerant
JSON-recovery function `safe_parse_json`, the response-normalization logic of
the two request handlers `estimate_text` (POST /estimate) and `estimate_image`
(POST /estimate/image), and the startup configuration `configure_gemini`.

Modelling conventions:
* Python values that can come out of `json.loads` are modelled by the
  inductive type `JVal` (null, bool, number, string, list, dict).  Python
  numbers (int and float alike) are modelled as rationals `ℚ`; IEEE-754
  artefacts (NaN, infinities, binary rounding) are outside the model.
* `json.loads` itself is a library function external to the repository; it is
  passed in as an abstract parameter `parse : String → Option JVal`
  (`none` = the call raises).  Note that Python's `json.loads "null"` returns
  the Python value `None`, which the source cannot distinguish from the
  `None` it uses as a failure sentinel; the embedding keeps the two apart
  (`some JVal.jnull` vs `none`), which is observationally equivalent here
  because the only consumer tests truthiness, and both are falsy.
* The Gemini model client is external; the single `generate_content` call a
  handler makes is modelled by a parameter `gen` mapping the request the
  handler builds to an outcome (`GenOutcome`): either the call raises, or it
  returns a response whose `.text` attribute is an `Option String`.
* Exception message texts produced by the Python runtime (`TypeError`,
  `ValueError`, `AttributeError`) are abstracted by explicit message-building
  functions; the control flow (which exception fires where, and that its text
  is carried into the HTTP 502 detail) is modelled exactly.
-/

/-- The first brace character. Python source: the character `chr 123`. -/
def lbrace : Char := Char.ofNat 123

/-- The closing brace character, `chr 125`. -/
def rbrace : Char := Char.ofNat 125

/-- A JSON value as produced by Python's `json.loads`: `None`, `bool`,
number (`int`/`float`, both modelled as `ℚ`), `str`, `list`, `dict`.
Dict keys coming out of `json.loads` are unique (later duplicates win while
parsing and the resulting dict has one entry per key). -/
inductive JVal where
  | jnull : JVal
  | jbool : Bool → JVal
  | jnum : ℚ → JVal
  | jstr : String → JVal
  | jarr : List JVal → JVal
  | jobj : List (String × JVal) → JVal

/-- Python truthiness (`bool(v)`) of a parsed JSON value: `None` and `False`
are falsy, a number is falsy iff zero, a string/list/dict is falsy iff
empty. -/
def pyTruthy : JVal → Bool
  | JVal.jnull => false
  | JVal.jbool b => b
  | JVal.jnum q => decide (q ≠ 0)
  | JVal.jstr s => decide (s ≠ "")
  | JVal.jarr xs => !xs.isEmpty
  | JVal.jobj fs => !fs.isEmpty

/-- `d.get(key)` on a Python dict `d` (no default): the stored value, or
`none` when the key is absent.  Keys are unique, so first-match lookup. -/
def pyDictGet : List (String × JVal) → String → Option JVal
  | [], _ => none
  | (k, v) :: fs, key => if k = key then some v else pyDictGet fs key

/-- Python iteration `for it in v`: lists yield their elements, strings yield
their characters as one-character strings, dicts yield their keys; every
other value raises `TypeError` (modelled as `none`). -/
def pyIter : JVal → Option (List JVal)
  | JVal.jarr xs => some xs
  | JVal.jstr s => some (s.data.map (fun c => JVal.jstr (String.singleton c)))
  | JVal.jobj fs => some (fs.map (fun p => JVal.jstr p.1))
  | _ => none

/-- Is the value a Python dict (`isinstance(it, dict)`)? -/
def isDict : JVal → Bool
  | JVal.jobj _ => true
  | _ => false

/-- Is the value Python `None` (the JSON `null`)? -/
def isNull : JVal → Bool
  | JVal.jnull => true
  | _ => false

/-- Display of a parsed number, abstracting Python's `str()` on `int`/`float`
(the model does not track the int/float distinction nor float repr digits). -/
def ratDisplay (q : ℚ) : String :=
  if q.den = 1 then toString q.num else toString q.num ++ "/" ++ toString q.den

/-- Python type name of a parsed JSON value, used in exception texts.
`int` and `float` are collapsed to "number" (the model does not keep them
apart). -/
def pyTypeName : JVal → String
  | JVal.jnull => "NoneType"
  | JVal.jbool _ => "bool"
  | JVal.jnum _ => "number"
  | JVal.jstr _ => "str"
  | JVal.jarr _ => "list"
  | JVal.jobj _ => "dict"

mutual
/-- Python `repr` of a parsed JSON value (used by `str` on containers).
Abstraction: string quoting/escaping details and numeric digits are
simplified; the structure (brackets, commas, key-value colons) is kept. -/
def pyRepr : JVal → String
  | JVal.jnull => "None"
  | JVal.jbool b => if b then "True" else "False"
  | JVal.jnum q => ratDisplay q
  | JVal.jstr s => "\x27" ++ s ++ "\x27"
  | JVal.jarr xs => "[" ++ String.intercalate ", " (pyReprList xs) ++ "]"
  | JVal.jobj fs => "\x7b" ++ String.intercalate ", " (pyReprFields fs) ++ "\x7d"

/-- `pyRepr` mapped over the elements of a list. -/
def pyReprList : List JVal → List String
  | [] => []
  | x :: xs => pyRepr x :: pyReprList xs

/-- `pyRepr` of each key-value pair of a dict. -/
def pyReprFields : List (String × JVal) → List String
  | [] => []
  | (k, v) :: fs => ("\x27" ++ k ++ "\x27: " ++ pyRepr v) :: pyReprFields fs
end

/-- Python `str(v)` on a parsed JSON value: identity on strings, "None" for
`None`, "True"/"False" for booleans, repr-like display otherwise. -/
def pyStr : JVal → String
  | JVal.jstr s => s
  | v => pyRepr v

/-- Value of a non-empty digit string. -/
def digitsToNat (cs : List Char) : Nat :=
  cs.foldl (fun a c => a * 10 + (c.toNat - 48)) 0

/-- Exponent part of a float literal: optional sign then at least one
digit. -/
def parseExpPart (cs : List Char) : Option Int :=
  let (sgn, rest) :=
    match cs with
    | '+' :: r => ((1 : Int), r)
    | '-' :: r => ((-1 : Int), r)
    | r => ((1 : Int), r)
  if rest ≠ [] ∧ rest.all Char.isDigit then some (sgn * digitsToNat rest) else none

/-- Mantissa-and-exponent part of a float literal (after the sign):
`digits [. digits] [(e|E) exp]`, needing at least one digit in the mantissa. -/
def parseUnsignedFloat (cs : List Char) : Option ℚ :=
  let intPart := cs.takeWhile Char.isDigit
  let rest := cs.dropWhile Char.isDigit
  match rest with
  | [] => if intPart = [] then none else some ((digitsToNat intPart : ℚ))
  | '.' :: r =>
      let fracPart := r.takeWhile Char.isDigit
      let rest2 := r.dropWhile Char.isDigit
      if intPart = [] ∧ fracPart = [] then none
      else
        let base : ℚ :=
          (digitsToNat intPart : ℚ) + (digitsToNat fracPart : ℚ) / ((10 : ℚ) ^ fracPart.length)
        match rest2 with
        | [] => some base
        | e :: r2 =>
            if e = 'e' ∨ e = 'E' then
              (parseExpPart r2).map (fun k =>
                if 0 ≤ k then base * (10 : ℚ) ^ k.toNat else base / (10 : ℚ) ^ (-k).toNat)
            else none
  | e :: r2 =>
      if (e = 'e' ∨ e = 'E') ∧ intPart ≠ [] then
        (parseExpPart r2).map (fun k =>
          if 0 ≤ k then (digitsToNat intPart : ℚ) * (10 : ℚ) ^ k.toNat
          else (digitsToNat intPart : ℚ) / (10 : ℚ) ^ (-k).toNat)
      else none

/-- Python `float(s)` on a string: strip surrounding whitespace, optional
sign, decimal literal with optional fraction and exponent.  Abstraction:
"inf"/"nan" (no IEEE values in the model) and underscore separators are not
accepted. -/
def parseFloatString (s : String) : Option ℚ :=
  let cs := (s.data.dropWhile Char.isWhitespace).reverse.dropWhile Char.isWhitespace |>.reverse
  match cs with
  | '+' :: r => parseUnsignedFloat r
  | '-' :: r => (parseUnsignedFloat r).map (fun q => -q)
  | r => parseUnsignedFloat r

/-- Python `float(v)` on a parsed JSON value: numbers coerce to themselves,
booleans to 0/1, numeric strings are parsed; `None`, lists and dicts raise
(`TypeError`), non-numeric strings raise (`ValueError`) — modelled as
`none`. -/
def pyFloat : JVal → Option ℚ
  | JVal.jnum q => some q
  | JVal.jbool b => some (if b then 1 else 0)
  | JVal.jstr s => parseFloatString s
  | _ => none

/-- Message of the exception raised by a failed `float(v)`.  Abstraction of
CPython's `TypeError`/`ValueError` text; what matters is that it names the
offending value and is carried into the HTTP detail. -/
def floatErrMsg (v : JVal) : String :=
  "float() could not convert " ++ pyTypeName v ++ " " ++ pyRepr v

/-- Message of the `AttributeError` raised by `parsed.get(...)` when `parsed`
is not a dict.  Abstraction of CPython's text. -/
def noAttrGetMsg (v : JVal) : String :=
  "\x27" ++ pyTypeName v ++ "\x27 object has no attribute \x27get\x27"

/-- Message of the `TypeError` raised by iterating a non-iterable value.
Abstraction of CPython's text. -/
def notIterableMsg (v : JVal) : String :=
  "\x27" ++ pyTypeName v ++ "\x27 object is not iterable"

/-- Index of the first occurrence of `c` (Python `text.find(c)`, with `none`
for -1). -/
def findChar : List Char → Char → Option Nat
  | [], _ => none
  | c :: cs, t => if c = t then some 0 else (findChar cs t).map (· + 1)

/-- Index of the last occurrence of `c` (Python `text.rfind(c)`, with `none`
for -1). -/
def rfindChar (cs : List Char) (t : Char) : Option Nat :=
  (findChar cs.reverse t).map (fun i => cs.length - 1 - i)

/-- The slice `text[s : e + 1]` of Python, as a string. -/
def braceSlice (text : String) (s e : Nat) : String :=
  String.mk ((text.data.drop s).take (e + 1 - s))

/-- src/main.py lines 66-78, `safe_parse_json`: try `json.loads` on the whole
text; on failure find the first brace and last closing brace and, when both
exist with the closing one strictly later, try `json.loads` on the inclusive
slice between them; `none` when that also fails or no such braces exist.
`parse` stands for `json.loads` (`none` = raises). -/
def safe_parse_json (parse : String → Option JVal) (text : String) : Option JVal :=
  match parse text with
  | some v => some v
  | none =>
      match findChar text.data lbrace, rfindChar text.data rbrace with
      | some s, some e =>
          if e > s then parse (braceSlice text s e) else none
      | _, _ => none

/-- src/main.py lines 16-18, pydantic model `IngredientOut`:
`name : str`, `carbon_kg : float`. -/
structure IngredientOut where
  name : String
  carbon_kg : ℚ
  deriving DecidableEq

/-- src/main.py lines 21-24, pydantic model `EstimateOut`:
`dish : str`, `estimated_carbon_kg : float`, `ingredients : List IngredientOut`. -/
structure EstimateOut where
  dish : String
  estimated_carbon_kg : ℚ
  ingredients : List IngredientOut
  deriving DecidableEq

/-- Outcome of a FastAPI endpoint call: a 200 success body, or an
`HTTPException(status_code, detail)`. -/
inductive Response where
  | success : EstimateOut → Response
  | httpError : Nat → String → Response
  deriving DecidableEq

/-- Outcome of the single `model.generate_content(...)` call a handler makes:
the call raises with a message, or returns a response object whose `.text`
attribute is `getattr(response, "text", None)` (an `Option String`). -/
inductive GenOutcome where
  | raises : String → GenOutcome
  | returns : Option String → GenOutcome

/-- `getattr(response, "text", None) or ""`: the response text, with `None`
and the empty string both collapsing to `""`. -/
def pyOrStr (o : Option String) : String :=
  match o with
  | some s => if s = "" then "" else s
  | none => ""

/-- Python `x or fb` applied to the result of `safe_parse_json` (line 126 /
line 172): the parsed value when present and truthy, else the fallback. -/
def pyOrJ (v : Option JVal) (fb : JVal) : JVal :=
  match v with
  | some x => if pyTruthy x then x else fb
  | none => fb

/-- Python `x or 0.0` on the float `total_val` (line 137 / line 184): `x`
when nonzero (truthy), else `0`. -/
def pyOrQ (x d : ℚ) : ℚ :=
  if x ≠ 0 then x else d

/-- Round-half-to-even to an integer, as Python's `round` does on the value
(the model has exact rationals, so no binary-representation effects). -/
def roundHalfEven (q : ℚ) : ℤ :=
  let f : ℤ := ⌊q⌋
  let frac : ℚ := q - (f : ℚ)
  if frac < 1 / 2 then f
  else if frac > 1 / 2 then f + 1
  else if f % 2 = 0 then f else f + 1

/-- Python `round(x, 2)`: round to 2 decimal places, ties to even. -/
def pyRound2 (q : ℚ) : ℚ :=
  (roundHalfEven (q * 100) : ℚ) / 100

/-- `sum(i.carbon_kg for i in ingredients)`. -/
def sumCarbon (ings : List IngredientOut) : ℚ :=
  (ings.map (fun i => i.carbon_kg)).sum

/-- src/main.py lines 34-44, `configure_gemini`: `None` when the API key is
absent/empty or the `google.generativeai` library failed to import, and when
constructing `GenerativeModel` raises; otherwise the model handle.  The
environment lookup, import success and constructor success are external and
passed as parameters. -/
def configure_gemini (apiKey : Option String) (genaiAvailable : Bool)
    (modelCtorOk : Bool) : Option Unit :=
  if apiKey = none ∨ apiKey = some "" ∨ genaiAvailable = false then none
  else if modelCtorOk then some () else none

/-- src/main.py lines 47-54, `build_instruction_for_text`. -/
def build_instruction_for_text (dish : String) : String :=
  "You are a sustainability assistant. Given a dish name, infer 3-8 likely ingredients " ++
  "and estimate their carbon footprint in kg CO2e each. Return STRICT JSON with keys: " ++
  "dish (string), estimated_carbon_kg (number), ingredients (array of \x7bname, carbon_kg\x7d). " ++
  "Use reasonable, order-of-magnitude values. Do not include any extra commentary.\n\n" ++
  "Dish: " ++ dish

/-- src/main.py lines 57-63, `build_instruction_for_image`. -/
def build_instruction_for_image : String :=
  "You are a vision sustainability assistant. Analyze the image to identify the food dish " ++
  "or its main ingredients, then produce a JSON object with: dish (string guess), " ++
  "estimated_carbon_kg (number), ingredients (array of \x7bname, carbon_kg\x7d)." ++
  " Return STRICT JSON only."

/-- Lines 127-134 / 173-180, the ingredient list comprehension: for each
element of the iterable that is a dict, an `IngredientOut` with
`name = str(it.get("name", "Unknown"))` and
`carbon_kg = float(it.get("carbon_kg", 0.0))`; non-dict elements are skipped;
a failing `float` raises with that element's message (first failure wins). -/
def buildIngredients : List JVal → Except String (List IngredientOut)
  | [] => Except.ok []
  | it :: rest =>
      match it with
      | JVal.jobj fs =>
          match pyFloat ((pyDictGet fs "carbon_kg").getD (JVal.jnum 0)) with
          | some q =>
              (buildIngredients rest).map
                (fun tail =>
                  { name := pyStr ((pyDictGet fs "name").getD (JVal.jstr "Unknown")),
                    carbon_kg := q } :: tail)
          | none => Except.error (floatErrMsg ((pyDictGet fs "carbon_kg").getD (JVal.jnum 0)))
      | _ => buildIngredients rest

/-- The iterable the comprehension runs over:
`(parsed.get("ingredients", []) or [])` — the value at "ingredients" when
present and truthy, else `[]` — then Python iteration, which raises
`TypeError` on a truthy non-iterable value. -/
def ingredientsIter (fs : List (String × JVal)) : Except String (List JVal) :=
  let rawIng := (pyDictGet fs "ingredients").getD (JVal.jarr [])
  let src := if pyTruthy rawIng then rawIng else JVal.jarr []
  match pyIter src with
  | some xs => Except.ok xs
  | none => Except.error (notIterableMsg src)

/-- Lines 135-136 / 181-182: `total = parsed.get("estimated_carbon_kg")`
(Python `None` both when the key is absent and when its value is JSON null),
then `total_val = float(total) if (total is not None) else sum(...)`; a
failing `float` raises. -/
def totalValOf (fs : List (String × JVal)) (ings : List IngredientOut) :
    Except String ℚ :=
  match pyDictGet fs "estimated_carbon_kg" with
  | some v =>
      if isNull v then Except.ok (sumCarbon ings)
      else
        match pyFloat v with
        | some q => Except.ok q
        | none => Except.error (floatErrMsg v)
  | none => Except.ok (sumCarbon ings)

/-- Lines 127-137 (text path) and 173-184 (image path) after the fallback
substitution: the shape-coercion of the parsed value into an `EstimateOut`.
`parsed.get(...)` raises `AttributeError` when `parsed` is not a dict.
`defaultDish` is the trimmed input dish (text path) or "Uploaded Dish"
(image path), used as the default of `parsed.get("dish", ...)`. -/
def normalizeParsed (defaultDish : String) (parsed : JVal) : Except String EstimateOut :=
  match parsed with
  | JVal.jobj fs =>
      match ingredientsIter fs with
      | Except.error e => Except.error e
      | Except.ok xs =>
          match buildIngredients xs with
          | Except.error e => Except.error e
          | Except.ok ings =>
              match totalValOf fs ings with
              | Except.error e => Except.error e
              | Except.ok t =>
                  Except.ok
                    { dish := pyStr ((pyDictGet fs "dish").getD (JVal.jstr defaultDish)),
                      estimated_carbon_kg := pyRound2 (pyOrQ t 0),
                      ingredients := ings }
  | v => Except.error (noAttrGetMsg v)

/-- Line 126: the fallback object
`{"dish": dish, "ingredients": [], "estimated_carbon_kg": 0}` of the text
path. -/
def fallbackText (dish : String) : JVal :=
  JVal.jobj [("dish", JVal.jstr dish), ("ingredients", JVal.jarr []),
             ("estimated_carbon_kg", JVal.jnum 0)]

/-- Line 172: the fallback object of the image path. -/
def fallbackImage : JVal :=
  JVal.jobj [("dish", JVal.jstr "Uploaded Dish"), ("ingredients", JVal.jarr []),
             ("estimated_carbon_kg", JVal.jnum 0)]

/-- Python `s.strip()`: the string without leading and trailing whitespace.
(Defined over the character list so it reduces structurally; Python also
strips a few more exotic whitespace code points than `Char.isWhitespace`.) -/
def pyStrip (s : String) : String :=
  String.mk ((s.data.dropWhile Char.isWhitespace).reverse.dropWhile Char.isWhitespace |>.reverse)

/-- src/main.py lines 113-141, the `POST /estimate` handler `estimate_text`.
`parse` stands for `json.loads`, `model` for the module-level handle set by
`configure_gemini` at startup, `gen` for the external
`model.generate_content` call (applied to the instruction the handler
builds), `dataDish` for the request body's `dish` field.  Any exception
inside the `try` block (upstream call, normalization) is caught and mapped
to `HTTPException(502, "Model error: " + str(e))`. -/
def estimate_text (parse : String → Option JVal) (model : Option Unit)
    (gen : String → GenOutcome) (dataDish : String) : Response :=
  let dish := pyStrip dataDish
  if dish = "" then
    Response.httpError 400 "\x27dish\x27 must be a non-empty string"
  else
    match model with
    | none =>
        Response.httpError 500
          "Gemini client not configured. Ensure GEMINI_API_KEY and google-generativeai are set."
    | some _ =>
        match gen (build_instruction_for_text dish) with
        | GenOutcome.raises e => Response.httpError 502 ("Model error: " ++ e)
        | GenOutcome.returns tOpt =>
            let text := pyOrStr tOpt
            let parsed := pyOrJ (safe_parse_json parse text) (fallbackText dish)
            match normalizeParsed dish parsed with
            | Except.ok out => Response.success out
            | Except.error e => Response.httpError 502 ("Model error: " ++ e)

/-- The image part handed to `generate_content` on the image path:
`{"mime_type": image.content_type or "image/jpeg", "data": content}`. -/
structure ImagePart where
  mime_type : String
  data : List Nat

/-- src/main.py lines 155-188, the `POST /estimate/image` handler
`estimate_image`.  `content` is the uploaded payload (bytes), `contentType`
the declared media type (`image.content_type`, possibly absent); `gen` is
applied to the `[instruction, image part]` pair the handler builds. -/
def estimate_image (parse : String → Option JVal) (model : Option Unit)
    (gen : String × ImagePart → GenOutcome) (content : List Nat)
    (contentType : Option String) : Response :=
  if content.isEmpty then
    Response.httpError 400 "Empty image upload"
  else
    match model with
    | none =>
        Response.httpError 500
          "Gemini client not configured. Ensure GEMINI_API_KEY and google-generativeai are set."
    | some _ =>
        let mime :=
          match contentType with
          | some s => if s = "" then "image/jpeg" else s
          | none => "image/jpeg"
        match gen (build_instruction_for_image, ⟨mime, content⟩) with
        | GenOutcome.raises e => Response.httpError 502 ("Model error: " ++ e)
        | GenOutcome.returns tOpt =>
            let text := pyOrStr tOpt
            let parsed := pyOrJ (safe_parse_json parse text) fallbackImage
            match normalizeParsed "Uploaded Dish" parsed with
            | Except.ok out => Response.success out
            | Except.error e => Response.httpError 502 ("Model error: " ++ e)

/-! ## Helper lemmas -/

theorem pyOrQ_zero (t : ℚ) : pyOrQ t 0 = t := by
  unfold pyOrQ
  split
  · rfl
  · next h => simp at h; exact h.symm

theorem pyRound2_zero : pyRound2 0 = 0 := by
  norm_num [pyRound2, roundHalfEven]

/-- Every element of a list of non-dict values is skipped by the ingredient
comprehension. -/
theorem buildIngredients_all_nondict (l : List JVal)
    (h : ∀ x ∈ l, isDict x = false) : buildIngredients l = Except.ok [] := by
  induction l with
  | nil => rfl
  | cons x xs ih =>
      have hx := h x (List.mem_cons_self x xs)
      have hxs : ∀ y ∈ xs, isDict y = false := fun y hy => h y (List.mem_cons_of_mem x hy)
      cases x <;> simp [buildIngredients, ih hxs] <;> simp [isDict] at hx

/-- Normalizing the text-path fallback object yields the fallback result. -/
theorem normalizeParsed_fallbackText (dish : String) :
    normalizeParsed dish (fallbackText dish) =
      Except.ok { dish := dish, estimated_carbon_kg := 0, ingredients := [] } := by
  simp [normalizeParsed, fallbackText, ingredientsIter, pyDictGet, pyTruthy, pyIter,
        buildIngredients, totalValOf, isNull, pyFloat, pyStr, sumCarbon, pyOrQ_zero,
        pyRound2_zero]

/-- Unfolding of the text handler past validation, configuration check and a
non-raising upstream call. -/
theorem estimate_text_unfold (parse : String → Option JVal) (gen : String → GenOutcome)
    (dataDish : String) (tOpt : Option String)
    (hdish : pyStrip dataDish ≠ "")
    (hgen : gen (build_instruction_for_text (pyStrip dataDish)) = GenOutcome.returns tOpt) :
    estimate_text parse (some ()) gen dataDish =
      match normalizeParsed (pyStrip dataDish)
        (pyOrJ (safe_parse_json parse (pyOrStr tOpt)) (fallbackText (pyStrip dataDish))) with
      | Except.ok out => Response.success out
      | Except.error e => Response.httpError 502 ("Model error: " ++ e) := by
  simp [estimate_text, hdish, hgen]

/-- If the ingredient iterable is obtained but building the ingredient list
raises, normalization raises with that message. -/
theorem normalizeParsed_error_of_build (d : String) (fs : List (String × JVal))
    (xs : List JVal) (e : String)
    (hiter : ingredientsIter fs = Except.ok xs)
    (hbuild : buildIngredients xs = Except.error e) :
    normalizeParsed d (JVal.jobj fs) = Except.error e := by
  simp [normalizeParsed, hiter, hbuild]

/-! ## Claim theorems -/

/-- C1: JSON recovery (`safe_parse_json`) proceeds in exactly these steps:
the whole text is parsed first and a successful parse is returned as-is; on
failure the first brace and last closing brace are located and, when both
exist with the closing one strictly after the opening one, the inclusive
slice between them is parsed and returned; when the braces are missing, in
the wrong order, or the slice fails to parse as well, recovery returns the
sentinel `none` rather than raising. -/
theorem safe_parse_json_recovery (parse : String → Option JVal) (text : String) :
    (∀ v, parse text = some v → safe_parse_json parse text = some v)
    ∧ (parse text = none →
        ∀ s e, findChar text.data lbrace = some s → rfindChar text.data rbrace = some e →
          e > s → safe_parse_json parse text = parse (braceSlice text s e))
    ∧ (parse text = none → findChar text.data lbrace = none →
        safe_parse_json parse text = none)
    ∧ (parse text = none → rfindChar text.data rbrace = none →
        safe_parse_json parse text = none)
    ∧ (parse text = none →
        ∀ s e, findChar text.data lbrace = some s → rfindChar text.data rbrace = some e →
          ¬ e > s → safe_parse_json parse text = none) := by
  refine ⟨?_, ?_, ?_, ?_, ?_⟩
  · intro v hv
    simp [safe_parse_json, hv]
  · intro hn s e hs he hgt
    simp [safe_parse_json, hn, hs, he, hgt]
  · intro hn hs
    simp [safe_parse_json, hn, hs]
  · intro hn he
    cases hfind : findChar text.data lbrace <;> simp [safe_parse_json, hn, hfind, he]
  · intro hn s e hs he hle
    simp [safe_parse_json, hn, hs, he, hle]

/-- Witness for C1: a concrete parser that always fails, on the text
`"x{y}z"`; recovery hands the inclusive brace slice `"{y}"` to the second
parse attempt, whose failure makes recovery yield the sentinel `none`. -/
theorem safe_parse_json_recovery_witness :
    safe_parse_json (fun _ => (none : Option JVal)) "x\x7by\x7dz" =
      (fun _ => (none : Option JVal)) (braceSlice "x\x7by\x7dz" 1 3) := by
  have h := (safe_parse_json_recovery (fun _ => (none : Option JVal)) "x\x7by\x7dz").2.1
  exact h rfl 1 3 (by decide) (by decide) (by decide)

/-- C2: on the text path, when the raw model text is unrecoverable as JSON
(in particular when it has no braces at all, so both recovery attempts fail),
the handler succeeds with exactly the fallback result: the trimmed input dish
name, an empty ingredient list, and a total of 0.0. -/
theorem estimate_text_fallback_result (parse : String → Option JVal)
    (gen : String → GenOutcome) (dataDish : String) (tOpt : Option String)
    (hdish : pyStrip dataDish ≠ "")
    (hgen : gen (build_instruction_for_text (pyStrip dataDish)) = GenOutcome.returns tOpt)
    (hrec : safe_parse_json parse (pyOrStr tOpt) = none) :
    estimate_text parse (some ()) gen dataDish =
      Response.success
        { dish := pyStrip dataDish, estimated_carbon_kg := 0, ingredients := [] }
    ∧ (∀ t : String, parse t = none → findChar t.data lbrace = none →
        safe_parse_json parse t = none) := by
  constructor
  · rw [estimate_text_unfold parse gen dataDish tOpt hdish hgen, hrec]
    simp [pyOrJ, normalizeParsed_fallbackText]
  · intro t hp hnob
    simp [safe_parse_json, hp, hnob]

/-- Witness for C2, the spec's concrete scenario: input dish "Mystery Stew",
model text brace-free garbage that no parse accepts; the result is exactly
`{"dish": "Mystery Stew", "estimated_carbon_kg": 0.0, "ingredients": []}`. -/
theorem estimate_text_fallback_result_witness :
    estimate_text (fun _ => (none : Option JVal)) (some ())
      (fun _ => GenOutcome.returns (some "I am sorry, I cannot help with that."))
      "Mystery Stew" =
      Response.success
        { dish := "Mystery Stew", estimated_carbon_kg := 0, ingredients := [] } := by
  have h := estimate_text_fallback_result (fun _ => (none : Option JVal))
    (fun _ => GenOutcome.returns (some "I am sorry, I cannot help with that."))
    "Mystery Stew" (some "I am sorry, I cannot help with that.")
    (by decide) rfl rfl
  exact h.1

/-- C3: in the ingredient comprehension, an element that is not a dict is
silently skipped (no error); a dict element whose `carbon_kg` coerces to the
float `q` contributes an `IngredientOut` whose name is the stringified `name`
field ("Unknown" when the key is absent) and whose `carbon_kg` is `q`; a
missing `carbon_kg` key coerces to the default `0.0`. -/
theorem ingredient_entry_coercion (v : JVal) (xs : List JVal)
    (fs : List (String × JVal)) :
    (isDict v = false → buildIngredients (v :: xs) = buildIngredients xs)
    ∧ (∀ q, pyFloat ((pyDictGet fs "carbon_kg").getD (JVal.jnum 0)) = some q →
        buildIngredients (JVal.jobj fs :: xs) =
          (buildIngredients xs).map
            (fun tail =>
              { name := pyStr ((pyDictGet fs "name").getD (JVal.jstr "Unknown")),
                carbon_kg := q } :: tail))
    ∧ (pyDictGet fs "name" = none →
        pyStr ((pyDictGet fs "name").getD (JVal.jstr "Unknown")) = "Unknown")
    ∧ (pyDictGet fs "carbon_kg" = none →
        pyFloat ((pyDictGet fs "carbon_kg").getD (JVal.jnum 0)) = some 0) := by
  refine ⟨?_, ?_, ?_, ?_⟩
  · intro hv
    cases v <;> simp [buildIngredients] <;> simp [isDict] at hv
  · intro q hq
    simp [buildIngredients, hq]
  · intro hn
    rw [hn]
    rfl
  · intro hc
    rw [hc]
    rfl

/-- Witness for C3: the bare string "Oil" is dropped and the empty dict
yields the ingredient `{name := "Unknown", carbon_kg := 0}`. -/
theorem ingredient_entry_coercion_witness :
    buildIngredients [JVal.jstr "Oil", JVal.jobj []] =
      buildIngredients [JVal.jobj []]
    ∧ buildIngredients [JVal.jobj []] =
      Except.ok [{ name := "Unknown", carbon_kg := 0 }] := by
  have h1 := (ingredient_entry_coercion (JVal.jstr "Oil") [JVal.jobj []] []).1 rfl
  have h2 := (ingredient_entry_coercion (JVal.jobj []) [] []).2.1 0 rfl
  exact ⟨h1, by rw [h2]; rfl⟩

/-- If `estimated_carbon_kg` is absent or null, `totalValOf` is the ingredient
sum. -/
theorem totalValOf_sum (fs : List (String × JVal)) (ings : List IngredientOut)
    (htot : pyDictGet fs "estimated_carbon_kg" = none ∨
            pyDictGet fs "estimated_carbon_kg" = some JVal.jnull) :
    totalValOf fs ings = Except.ok (sumCarbon ings) := by
  cases htot with
  | inl h => simp [totalValOf, h]
  | inr h => simp [totalValOf, h, isNull]

/-- C4: when the recovered object lacks the top-level `estimated_carbon_kg`
key (or holds it with the absent value null), a successful text-path response
carries as total exactly the sum of the coerced ingredient `carbon_kg`
values, rounded to 2 decimal places. -/
theorem estimate_text_total_from_sum (parse : String → Option JVal)
    (gen : String → GenOutcome) (dataDish : String) (tOpt : Option String)
    (fs : List (String × JVal)) (out : EstimateOut)
    (hdish : pyStrip dataDish ≠ "")
    (hgen : gen (build_instruction_for_text (pyStrip dataDish)) = GenOutcome.returns tOpt)
    (hrec : safe_parse_json parse (pyOrStr tOpt) = some (JVal.jobj fs))
    (htruthy : pyTruthy (JVal.jobj fs) = true)
    (htot : pyDictGet fs "estimated_carbon_kg" = none ∨
            pyDictGet fs "estimated_carbon_kg" = some JVal.jnull)
    (hout : estimate_text parse (some ()) gen dataDish = Response.success out) :
    out.estimated_carbon_kg = pyRound2 (sumCarbon out.ingredients) := by
  rw [estimate_text_unfold parse gen dataDish tOpt hdish hgen, hrec] at hout
  simp only [pyOrJ, htruthy, if_pos] at hout
  cases hiter : ingredientsIter fs with
  | error e => simp [normalizeParsed, hiter] at hout
  | ok xs =>
      cases hbuild : buildIngredients xs with
      | error e => simp [normalizeParsed, hiter, hbuild] at hout
      | ok ings =>
          rw [show normalizeParsed (pyStrip dataDish) (JVal.jobj fs) =
                Except.ok { dish := pyStr ((pyDictGet fs "dish").getD
                              (JVal.jstr (pyStrip dataDish))),
                            estimated_carbon_kg := pyRound2 (pyOrQ (sumCarbon ings) 0),
                            ingredients := ings } by
                simp [normalizeParsed, hiter, hbuild, totalValOf_sum fs ings htot]] at hout
          cases hout
          simp [pyOrQ_zero]

/-- Helper: `pyRound2 q` when `q` is an exact number of hundredths. -/
theorem pyRound2_of_mul_hundred (q : ℚ) (n : ℤ) (h : q * 100 = (n : ℚ)) :
    pyRound2 q = (n : ℚ) / 100 := by
  simp [pyRound2, roundHalfEven, h, Int.floor_intCast]

/-- Witness for C4: a recovered object with no `estimated_carbon_kg` key and
one ingredient of 1.5 kg; the response total is the rounded ingredient sum. -/
theorem estimate_text_total_from_sum_witness :
    ({ dish := "Pasta", estimated_carbon_kg := 3/2,
       ingredients := [{ name := "Rice", carbon_kg := 3/2 }] } : EstimateOut).estimated_carbon_kg
      = pyRound2 (sumCarbon [{ name := "Rice", carbon_kg := 3/2 }]) := by
  have hout : estimate_text
      (fun _ => some (JVal.jobj [("dish", JVal.jstr "Pasta"), ("ingredients", JVal.jarr
        [JVal.jobj [("name", JVal.jstr "Rice"), ("carbon_kg", JVal.jnum (3/2))]])]))
      (some ()) (fun _ => GenOutcome.returns (some "t")) "Pasta" =
      Response.success
        { dish := "Pasta", estimated_carbon_kg := 3/2,
          ingredients := [{ name := "Rice", carbon_kg := 3/2 }] } := by
    rw [estimate_text_unfold _ _ _ (some "t") (by decide) rfl]
    rw [show safe_parse_json
        (fun _ => some (JVal.jobj [("dish", JVal.jstr "Pasta"), ("ingredients", JVal.jarr
          [JVal.jobj [("name", JVal.jstr "Rice"), ("carbon_kg", JVal.jnum (3/2))]])]))
        (pyOrStr (some "t")) =
        some (JVal.jobj [("dish", JVal.jstr "Pasta"), ("ingredients", JVal.jarr
          [JVal.jobj [("name", JVal.jstr "Rice"), ("carbon_kg", JVal.jnum (3/2))]])]) from rfl]
    simp only [pyOrJ, pyTruthy, List.isEmpty, Bool.not_false, if_pos]
    rw [show (normalizeParsed (pyStrip "Pasta")
        (JVal.jobj [("dish", JVal.jstr "Pasta"), ("ingredients", JVal.jarr
          [JVal.jobj [("name", JVal.jstr "Rice"), ("carbon_kg", JVal.jnum (3/2))]])])) =
        Except.ok { dish := "Pasta",
                    estimated_carbon_kg := pyRound2 (pyOrQ (sumCarbon
                      [{ name := "Rice", carbon_kg := 3/2 }]) 0),
                    ingredients := [{ name := "Rice", carbon_kg := 3/2 }] } by
      simp [normalizeParsed, ingredientsIter, pyDictGet, pyTruthy, pyIter,
            buildIngredients, pyFloat, pyStr, totalValOf, isNull, sumCarbon,
            Except.map]]
    rw [pyOrQ_zero, pyRound2_of_mul_hundred (sumCarbon [{ name := "Rice", carbon_kg := 3/2 }]) 150
        (by norm_num [sumCarbon])]
    norm_num
  have h := estimate_text_total_from_sum
    (fun _ => some (JVal.jobj [("dish", JVal.jstr "Pasta"), ("ingredients", JVal.jarr
      [JVal.jobj [("name", JVal.jstr "Rice"), ("carbon_kg", JVal.jnum (3/2))]])]))
    (fun _ => GenOutcome.returns (some "t")) "Pasta" (some "t")
    [("dish", JVal.jstr "Pasta"), ("ingredients", JVal.jarr
      [JVal.jobj [("name", JVal.jstr "Rice"), ("carbon_kg", JVal.jnum (3/2))]])]
    { dish := "Pasta", estimated_carbon_kg := 3/2,
      ingredients := [{ name := "Rice", carbon_kg := 3/2 }] }
    (by decide) rfl rfl rfl (Or.inl rfl) hout
  exact h

/-- C5: whatever total `t` the normalizer computes or coerces (upstream value
or ingredient sum), the `estimated_carbon_kg` of a successful result is
`round(t or 0.0, 2)`: the total is replaced by `0.0` when it is falsy (in the
rational model, falsy means exactly `0`; no NaN exists), and the final value
is an exact multiple of 1/100 (rounded to exactly 2 decimal places). -/
theorem final_total_falsy_then_rounded (d : String) (fs : List (String × JVal))
    (xs : List JVal) (ings : List IngredientOut) (t : ℚ) (out : EstimateOut)
    (hiter : ingredientsIter fs = Except.ok xs)
    (hbuild : buildIngredients xs = Except.ok ings)
    (htot : totalValOf fs ings = Except.ok t)
    (hok : normalizeParsed d (JVal.jobj fs) = Except.ok out) :
    out.estimated_carbon_kg = pyRound2 (pyOrQ t 0)
    ∧ (t = 0 → out.estimated_carbon_kg = 0)
    ∧ ∃ n : ℤ, out.estimated_carbon_kg = (n : ℚ) / 100 := by
  have hnp : normalizeParsed d (JVal.jobj fs) =
      Except.ok { dish := pyStr ((pyDictGet fs "dish").getD (JVal.jstr d)),
                  estimated_carbon_kg := pyRound2 (pyOrQ t 0),
                  ingredients := ings } := by
    simp [normalizeParsed, hiter, hbuild, htot]
  rw [hnp] at hok
  cases hok
  refine ⟨rfl, ?_, ?_⟩
  · intro ht
    simp only [pyOrQ_zero, ht, pyRound2_zero]
  · exact ⟨roundHalfEven (pyOrQ t 0 * 100), rfl⟩

/-- Witness for C5: an object carrying `estimated_carbon_kg = 4.2` and an
empty ingredient list; the resulting total is `round(4.2 or 0.0, 2)`, a
multiple of 1/100. -/
theorem final_total_falsy_then_rounded_witness :
    ({ dish := "Curry", estimated_carbon_kg := pyRound2 (pyOrQ (21/5) 0),
       ingredients := [] } : EstimateOut).estimated_carbon_kg = pyRound2 (pyOrQ (21/5) 0)
    ∧ ∃ n : ℤ, ({ dish := "Curry",
                  estimated_carbon_kg := pyRound2 (pyOrQ (21/5) 0),
                  ingredients := [] } : EstimateOut).estimated_carbon_kg = (n : ℚ) / 100 := by
  have h := final_total_falsy_then_rounded "Curry"
    [("estimated_carbon_kg", JVal.jnum (21/5)), ("ingredients", JVal.jarr [])]
    [] [] (21/5)
    { dish := "Curry", estimated_carbon_kg := pyRound2 (pyOrQ (21/5) 0), ingredients := [] }
    rfl rfl rfl rfl
  exact ⟨h.1, h.2.2⟩

/-- C6 counterexample: a recovered object whose `ingredients` value is the
number 5 (present, truthy, not list-like) does not yield an empty ingredient
sequence — the request terminates with a 502 upstream error (Python raises
`TypeError` when the comprehension iterates the number). -/
theorem ingredients_nonlist_number_counterexample :
    estimate_text (fun _ => some (JVal.jobj [("ingredients", JVal.jnum 5)])) (some ())
      (fun _ => GenOutcome.returns (some "five ingredients")) "Pasta" =
      Response.httpError 502 "Model error: \x27number\x27 object is not iterable" := rfl

/-- C6 amended: the `ingredients` value is the key's value when present and
truthy, run through Python iteration: a list is used as-is; a falsy value
(null, false, 0, empty string/list/dict) yields the empty sequence via the
`or []` fallback; a truthy string or dict is iterated into non-dict elements
(characters / keys) which are then all dropped, also yielding an empty
ingredient list; but a truthy number or `true` is not iterable and raises,
terminating the request with the 502 upstream error. -/
theorem ingredients_value_characterization (fs : List (String × JVal)) (v : JVal)
    (hv : pyDictGet fs "ingredients" = some v) :
    (pyTruthy v = false → ingredientsIter fs = Except.ok [])
    ∧ (∀ xs, v = JVal.jarr xs → ingredientsIter fs = Except.ok xs)
    ∧ (∀ s, v = JVal.jstr s → ∃ xs, ingredientsIter fs = Except.ok xs ∧
        buildIngredients xs = Except.ok [])
    ∧ (∀ gs, v = JVal.jobj gs → ∃ xs, ingredientsIter fs = Except.ok xs ∧
        buildIngredients xs = Except.ok [])
    ∧ (∀ q, v = JVal.jnum q → q ≠ 0 →
        ingredientsIter fs = Except.error (notIterableMsg v))
    ∧ (v = JVal.jbool true → ingredientsIter fs = Except.error (notIterableMsg v)) := by
  refine ⟨?_, ?_, ?_, ?_, ?_, ?_⟩
  · intro hfalsy
    simp [ingredientsIter, hv, hfalsy, pyIter]
  · intro xs hxs
    subst hxs
    by_cases hxe : xs.isEmpty
    · rw [List.isEmpty_iff] at hxe
      subst hxe
      simp [ingredientsIter, hv, pyTruthy, pyIter]
    · simp [ingredientsIter, hv, pyTruthy, hxe, pyIter]
  · intro s hs
    subst hs
    refine ⟨if pyTruthy (JVal.jstr s) then s.data.map (fun c => JVal.jstr (String.singleton c)) else [], ?_, ?_⟩
    · by_cases ht : pyTruthy (JVal.jstr s)
      · simp [ingredientsIter, hv, ht, pyIter]
      · simp [ingredientsIter, hv, ht, pyIter]
    · by_cases ht : pyTruthy (JVal.jstr s)
      · simp only [ht, if_pos]
        exact buildIngredients_all_nondict _ (by
          intro x hx
          simp only [List.mem_map] at hx
          obtain ⟨c, _, hc⟩ := hx
          simp [← hc, isDict])
      · simp only [ht, Bool.false_eq_true, if_neg]
        rfl
  · intro gs hgs
    subst hgs
    refine ⟨if pyTruthy (JVal.jobj gs) then gs.map (fun p => JVal.jstr p.1) else [], ?_, ?_⟩
    · by_cases ht : pyTruthy (JVal.jobj gs)
      · simp [ingredientsIter, hv, ht, pyIter]
      · simp [ingredientsIter, hv, ht, pyIter]
    · by_cases ht : pyTruthy (JVal.jobj gs)
      · simp only [ht, if_pos]
        exact buildIngredients_all_nondict _ (by
          intro x hx
          simp only [List.mem_map] at hx
          obtain ⟨p, _, hp⟩ := hx
          simp [← hp, isDict])
      · simp only [ht, Bool.false_eq_true, if_neg]
        rfl
  · intro q hq hq0
    subst hq
    simp [ingredientsIter, hv, pyTruthy, hq0, pyIter, notIterableMsg]
  · intro hb
    subst hb
    simp [ingredientsIter, hv, pyTruthy, pyIter, notIterableMsg]

/-- Witness for C6 (amended): a truthy string value iterates into dropped
characters (empty result), while the truthy number 5 raises. -/
theorem ingredients_value_characterization_witness :
    (∃ xs, ingredientsIter [("ingredients", JVal.jstr "ab")] = Except.ok xs ∧
      buildIngredients xs = Except.ok [])
    ∧ ingredientsIter [("ingredients", JVal.jnum 5)] =
        Except.error (notIterableMsg (JVal.jnum 5)) := by
  constructor
  · exact (ingredients_value_characterization [("ingredients", JVal.jstr "ab")]
      (JVal.jstr "ab") rfl).2.2.1 "ab" rfl
  · exact (ingredients_value_characterization [("ingredients", JVal.jnum 5)]
      (JVal.jnum 5) rfl).2.2.2.2.1 5 rfl (by norm_num)

/-- C7: a present `carbon_kg` whose value cannot be coerced by `float` makes
the ingredient comprehension raise with a message naming the value (not a
silent default), and any such normalization failure terminates the text
request with a 502 carrying the underlying error text — no `EstimateOut` is
returned. -/
theorem carbon_present_invalid_hard_failure (parse : String → Option JVal)
    (gen : String → GenOutcome) (dataDish : String) (tOpt : Option String)
    (fs gs : List (String × JVal)) (v : JVal) (xs : List JVal) (e : String)
    (hdish : pyStrip dataDish ≠ "")
    (hgen : gen (build_instruction_for_text (pyStrip dataDish)) = GenOutcome.returns tOpt)
    (hrec : safe_parse_json parse (pyOrStr tOpt) = some (JVal.jobj fs))
    (htruthy : pyTruthy (JVal.jobj fs) = true)
    (hiter : ingredientsIter fs = Except.ok xs)
    (hbuild : buildIngredients xs = Except.error e) :
    (estimate_text parse (some ()) gen dataDish =
        Response.httpError 502 ("Model error: " ++ e)
      ∧ ∀ out, estimate_text parse (some ()) gen dataDish ≠ Response.success out)
    ∧ (pyDictGet gs "carbon_kg" = some v → pyFloat v = none →
        buildIngredients (JVal.jobj gs :: xs) = Except.error (floatErrMsg v)) := by
  have herr : estimate_text parse (some ()) gen dataDish =
      Response.httpError 502 ("Model error: " ++ e) := by
    rw [estimate_text_unfold parse gen dataDish tOpt hdish hgen, hrec]
    simp only [pyOrJ, htruthy, if_pos]
    rw [normalizeParsed_error_of_build (pyStrip dataDish) fs xs e hiter hbuild]
  refine ⟨⟨herr, ?_⟩, ?_⟩
  · intro out
    rw [herr]
    simp
  · intro hg hf
    simp [buildIngredients, hg, hf]

/-- Witness for C7: an ingredient entry `{"carbon_kg": null}` — the key is
present but `float(None)` raises, so the request ends in a 502 that carries
the coercion error text. -/
theorem carbon_present_invalid_hard_failure_witness :
    estimate_text
      (fun _ => some (JVal.jobj [("ingredients", JVal.jarr
        [JVal.jobj [("carbon_kg", JVal.jnull)]])]))
      (some ()) (fun _ => GenOutcome.returns (some "t")) "Stew" =
      Response.httpError 502 ("Model error: " ++ floatErrMsg JVal.jnull) := by
  have h := carbon_present_invalid_hard_failure
    (fun _ => some (JVal.jobj [("ingredients", JVal.jarr
      [JVal.jobj [("carbon_kg", JVal.jnull)]])]))
    (fun _ => GenOutcome.returns (some "t")) "Stew" (some "t")
    [("ingredients", JVal.jarr [JVal.jobj [("carbon_kg", JVal.jnull)]])]
    [("carbon_kg", JVal.jnull)] JVal.jnull
    [JVal.jobj [("carbon_kg", JVal.jnull)]] (floatErrMsg JVal.jnull)
    (by decide) rfl rfl rfl rfl rfl
  exact h.1.1

/-- C8: an empty-after-trim dish name on the text path, and an empty payload
on the image path, are rejected with a 400 client error for every parser,
every gateway-availability state and every upstream behaviour — validation
happens before anything else. -/
theorem empty_input_validation_400 (parseT parseI : String → Option JVal)
    (modelT modelI : Option Unit) (genT : String → GenOutcome)
    (genI : String × ImagePart → GenOutcome) (dataDish : String)
    (ct : Option String) (hdish : pyStrip dataDish = "") :
    estimate_text parseT modelT genT dataDish =
      Response.httpError 400 "\x27dish\x27 must be a non-empty string"
    ∧ estimate_image parseI modelI genI [] ct =
      Response.httpError 400 "Empty image upload" := by
  constructor
  · simp [estimate_text, hdish]
  · simp [estimate_image]

/-- Witness for C8: a whitespace-only dish name and an empty upload, with a
parser that never succeeds, an unconfigured gateway on the text side, a
configured one on the image side, and an upstream call that would raise —
both endpoints still answer 400. -/
theorem empty_input_validation_400_witness :
    estimate_text (fun _ => (none : Option JVal)) none
      (fun _ => GenOutcome.raises "boom") "   " =
      Response.httpError 400 "\x27dish\x27 must be a non-empty string"
    ∧ estimate_image (fun _ => (none : Option JVal)) (some ())
      (fun _ => GenOutcome.raises "boom") [] none =
      Response.httpError 400 "Empty image upload" := by
  exact empty_input_validation_400 (fun _ => none) (fun _ => none) none (some ())
    (fun _ => GenOutcome.raises "boom") (fun _ => GenOutcome.raises "boom") "   " none
    (by decide)

/-- C9: with a valid input but an unavailable model handle (`None`, as
`configure_gemini` yields when the API key is absent/empty or the client
library is unavailable), both endpoints fail with the 500
service-misconfiguration error for every upstream behaviour (no generation
call can influence the outcome), and that error differs from every 502
upstream error. -/
theorem gateway_unconfigured_500 (parseT parseI : String → Option JVal)
    (genT : String → GenOutcome) (genI : String × ImagePart → GenOutcome)
    (dataDish : String) (content : List Nat) (ct : Option String)
    (apiKey : Option String) (genaiAvailable modelCtorOk : Bool)
    (hdish : pyStrip dataDish ≠ "") (hc : content ≠ []) :
    estimate_text parseT none genT dataDish =
      Response.httpError 500
        "Gemini client not configured. Ensure GEMINI_API_KEY and google-generativeai are set."
    ∧ estimate_image parseI none genI content ct =
      Response.httpError 500
        "Gemini client not configured. Ensure GEMINI_API_KEY and google-generativeai are set."
    ∧ (apiKey = none ∨ apiKey = some "" →
        configure_gemini apiKey genaiAvailable modelCtorOk = none)
    ∧ (genaiAvailable = false →
        configure_gemini apiKey genaiAvailable modelCtorOk = none)
    ∧ (∀ d, Response.httpError 500
        "Gemini client not configured. Ensure GEMINI_API_KEY and google-generativeai are set." ≠
        Response.httpError 502 d) := by
  refine ⟨?_, ?_, ?_, ?_, ?_⟩
  · simp [estimate_text, hdish]
  · have hce : content.isEmpty = false := by
      simpa [List.isEmpty_iff] using hc
    simp [estimate_image, hce]
  · intro h
    cases h with
    | inl h => simp [configure_gemini, h]
    | inr h => simp [configure_gemini, h]
  · intro h
    simp [configure_gemini, h]
  · intro d
    simp

/-- Witness for C9: dish "Pizza" and a one-byte upload against an
unconfigured gateway, and a configuration attempt with no API key. -/
theorem gateway_unconfigured_500_witness :
    estimate_text (fun _ => (none : Option JVal)) none
      (fun _ => GenOutcome.raises "boom") "Pizza" =
      Response.httpError 500
        "Gemini client not configured. Ensure GEMINI_API_KEY and google-generativeai are set."
    ∧ configure_gemini none true true = none := by
  have h := gateway_unconfigured_500 (fun _ => none) (fun _ => none)
    (fun _ => GenOutcome.raises "boom") (fun _ => GenOutcome.raises "boom")
    "Pizza" [7] none none true true (by decide) (by decide)
  exact ⟨h.1, h.2.2.1 (Or.inl rfl)⟩

/-- C10 (implicit): recovery can return a JSON value that is not a dict; a
truthy non-dict value bypasses the `or`-fallback and makes `.get` raise, so
the request ends in a 502 upstream error rather than a fallback or
normalized result; a falsy parse (empty array, empty object, null, 0, "",
false) does trigger the fallback result instead. -/
theorem truthy_nonobject_bypasses_fallback (parse : String → Option JVal)
    (gen : String → GenOutcome) (dataDish : String) (tOpt : Option String)
    (hdish : pyStrip dataDish ≠ "")
    (hgen : gen (build_instruction_for_text (pyStrip dataDish)) = GenOutcome.returns tOpt) :
    (∀ v, safe_parse_json parse (pyOrStr tOpt) = some v → pyTruthy v = true →
      isDict v = false →
      estimate_text parse (some ()) gen dataDish =
        Response.httpError 502 ("Model error: " ++ noAttrGetMsg v))
    ∧ (∀ v, safe_parse_json parse (pyOrStr tOpt) = some v → pyTruthy v = false →
      estimate_text parse (some ()) gen dataDish =
        Response.success
          { dish := pyStrip dataDish, estimated_carbon_kg := 0, ingredients := [] }) := by
  constructor
  · intro v hs ht hd
    rw [estimate_text_unfold parse gen dataDish tOpt hdish hgen, hs]
    simp only [pyOrJ, ht, if_pos]
    have hv : normalizeParsed (pyStrip dataDish) v = Except.error (noAttrGetMsg v) := by
      cases v <;> simp_all [normalizeParsed, isDict]
    rw [hv]
  · intro v hs ht
    rw [estimate_text_unfold parse gen dataDish tOpt hdish hgen, hs]
    simp [pyOrJ, ht, normalizeParsed_fallbackText]

/-- Witness for C10: the model text parses to the non-empty array `[null]`
(truthy, not a dict) — the handler answers 502, not a fallback result. -/
theorem truthy_nonobject_bypasses_fallback_witness :
    estimate_text (fun _ => some (JVal.jarr [JVal.jnull])) (some ())
      (fun _ => GenOutcome.returns (some "[null]")) "Soup" =
      Response.httpError 502 ("Model error: " ++ noAttrGetMsg (JVal.jarr [JVal.jnull])) := by
  have h := (truthy_nonobject_bypasses_fallback (fun _ => some (JVal.jarr [JVal.jnull]))
    (fun _ => GenOutcome.returns (some "[null]")) "Soup" (some "[null]")
    (by decide) rfl).1
  exact h (JVal.jarr [JVal.jnull]) rfl rfl rfl
